import Mathlib

/-!
Verification of the query-construction core of the entain repository
(racing/db/races.go, sports/db/sports.go, and the generated protobuf
message types). Go machine values are embedded as follows: int64 as Int,
string as String, bool as Bool, proto3 optional fields (pointers) as
Option, time instants as Int (nanoseconds since epoch; time.After is
strict >), and the database row cursor for the column-catalog query as an
explicit list of per-row scan results.
-/

namespace Entain

/-- Embedding of the Go string-builder helpers used by the repository.
strRepeat mirrors strings.Repeat(s, count). -/
def strRepeat (s : String) : Nat → String
  | 0 => ""
  | Nat.succ n => s ++ strRepeat s n

/-- Mirrors strings.Join(elems, sep): elements joined with sep between them. -/
def strJoin (sep : String) : List String → String
  | [] => ""
  | [s] => s
  | s :: t :: rest => s ++ sep ++ strJoin sep (t :: rest)

/-- Mirrors strings.ToUpper character by character (the direction tokens
compared against are ASCII). -/
def strToUpper (s : String) : String :=
  ⟨s.data.map Char.toUpper⟩

/-- Mirrors strconv.FormatBool. -/
def formatBool (b : Bool) : String :=
  if b then "true" else "false"

/-- Number of SQL placeholder characters in a string (used to state the
placeholder-counting claims). -/
def countPlaceholders (s : String) : Nat :=
  s.data.count (Char.ofNat 63)

/-- frag occurs as a contiguous substring of s. -/
def containsFrag (s frag : String) : Prop :=
  ∃ pre post : List Char, s.data = pre ++ frag.data ++ post

/-! ## Column catalog (races.go lines 133-151, sports.go lines 77-95)

The catalog query db.Query either fails outright (fetchError) or returns a
cursor of rows; scanning each row yields a column name or a scan error
(modelled as none). -/

inductive CatalogFetch where
  | fetchError
  | rows (rs : List (Option String))
deriving DecidableEq

/-- The loop over rows.Next/rows.Scan: returns the scanned column names, or
none as soon as one row fails to scan (the Go code returns early there and
discards the names collected so far). -/
def scanColumns : List (Option String) → Option (List String)
  | [] => some []
  | none :: _ => none
  | some c :: rest => (scanColumns rest).map (fun cols => c :: cols)

/-- True when the catalog was fetched and fully scanned and contains col. -/
def catalogAccepts (cat : CatalogFetch) (col : String) : Bool :=
  match cat with
  | CatalogFetch.fetchError => false
  | CatalogFetch.rows rs =>
    match scanColumns rs with
    | none => false
    | some cols => cols.contains col

/-- True when fetching or scanning the catalog fails. -/
def catalogFailed (cat : CatalogFetch) : Bool :=
  match cat with
  | CatalogFetch.fetchError => true
  | CatalogFetch.rows rs => (scanColumns rs).isNone

/-! ## Racing proto messages (racing/proto/racing, as used by races.go) -/

/-- racing.ListRacesRequestOrder: Field is a proto3 optional string
(pointer in Go), Direction likewise. -/
structure ListRacesRequestOrder where
  field : Option String
  direction : Option String
deriving DecidableEq

/-- Generated accessor GetField: dereference or zero value. -/
def ListRacesRequestOrder.getField (o : ListRacesRequestOrder) : String :=
  o.field.getD ""

/-- Generated accessor GetDirection. -/
def ListRacesRequestOrder.getDirection (o : ListRacesRequestOrder) : String :=
  o.direction.getD ""

/-- racing.ListRacesRequestFilter. -/
structure ListRacesRequestFilter where
  meetingIds : List Int
  visible : Option Bool
  id : Option Int
deriving DecidableEq

/-- racing.Race (persisted fields plus the derived status). -/
structure Race where
  id : Int
  meetingId : Int
  name : String
  number : Int
  visible : Bool
  advertisedStartTime : Option Int
  status : String
deriving DecidableEq

/-! ## Sports proto messages (sports/sports.pb.go) -/

/-- sports.ListEventsRequestOrder: Field is a plain (non-optional) proto3
string, Direction an optional string. -/
structure ListEventsRequestOrder where
  field : String
  direction : Option String
deriving DecidableEq

/-- Generated accessor GetField (Field is not a pointer in sports). -/
def ListEventsRequestOrder.getField (o : ListEventsRequestOrder) : String :=
  o.field

/-- Generated accessor GetDirection. -/
def ListEventsRequestOrder.getDirection (o : ListEventsRequestOrder) : String :=
  o.direction.getD ""

/-- sports.ListEventsRequestFilter. -/
structure ListEventsRequestFilter where
  homeTeam : Option String
  awayTeam : Option String
  venueLocation : Option String
  visible : Option Bool
deriving DecidableEq

/-- sports.Event (persisted fields plus the derived name and status). -/
structure Event where
  id : Int
  name : String
  homeTeam : String
  awayTeam : String
  venueLocation : String
  visible : Bool
  advertisedStartTime : Option Int
  status : String
deriving DecidableEq

/-! ## Order compilation -/

/-- The parseDirection closure inside racesRepo.applyOrder
(races.go lines 112-121): upper-case the token and map the two recognized
values to literal suffixes, anything else to the empty string. -/
def parseDirection (dir : String) : String :=
  let dir := strToUpper dir
  if dir = "ASC" then " ASC"
  else if dir = "DESC" then " DESC"
  else ""

/-- racesRepo.applyOrder (races.go lines 109-165). The catalog cursor is
passed explicitly in place of r.db. -/
def racesApplyOrder (query : String) (cat : CatalogFetch)
    (order : Option ListRacesRequestOrder) : String :=
  match order with
  | none => query
  | some o =>
    -- Default order by if no field has been provided (line 129-131);
    -- the Go code then falls through to the catalog check.
    let query :=
      match o.field with
      | none => query ++ " ORDER BY advertised_start_time" ++ parseDirection o.getDirection
      | some _ => query
    match cat with
    | CatalogFetch.fetchError => query
    | CatalogFetch.rows rs =>
      match scanColumns rs with
      | none => query
      | some cols =>
        if cols.contains o.getField then
          let query := query ++ " ORDER BY " ++ o.getField
          match o.direction with
          | some _ => query ++ parseDirection o.getDirection
          | none => query
        else query

/-- sportsRepo.applyOrder (sports.go lines 71-115). Note there is no
default-field branch; the direction switch is written inline in the Go. -/
def sportsApplyOrder (query : String) (cat : CatalogFetch)
    (order : Option ListEventsRequestOrder) : String :=
  match order with
  | none => query
  | some o =>
    match cat with
    | CatalogFetch.fetchError => query
    | CatalogFetch.rows rs =>
      match scanColumns rs with
      | none => query
      | some cols =>
        if cols.contains o.getField then
          let query := query ++ " ORDER BY " ++ o.getField
          match o.direction with
          | some _ =>
            let direction := strToUpper o.getDirection
            if direction = "ASC" then query ++ " ASC"
            else if direction = "DESC" then query ++ " DESC"
            else query
          | none => query
        else query

/-! ## Filter compilation -/

/-- racesRepo.applyFilter (races.go lines 167-199). Returns the query with
an optional WHERE clause and the positional argument list (all arguments in
the races filter are int64 values). -/
def racesApplyFilter (query : String) (filter : Option ListRacesRequestFilter) :
    String × List Int :=
  match filter with
  | none => (query, [])
  | some f =>
    let clauses : List String := []
    let args : List Int := []
    let clauses :=
      if 0 < f.meetingIds.length then
        clauses ++ ["meeting_id IN (" ++ strRepeat "?," (f.meetingIds.length - 1) ++ "?)"]
      else clauses
    let args :=
      if 0 < f.meetingIds.length then args ++ f.meetingIds else args
    let clauses :=
      match f.visible with
      | some b => clauses ++ ["visible = " ++ formatBool b]
      | none => clauses
    let clauses :=
      match f.id with
      | some _ => clauses ++ ["id = ?"]
      | none => clauses
    let args :=
      match f.id with
      | some i => args ++ [i]
      | none => args
    if clauses.length ≠ 0 then
      (query ++ " WHERE " ++ strJoin " AND " clauses, args)
    else
      (query, args)

/-- sportsRepo.applyFilter (sports.go lines 117-151); all bound arguments
in the events filter are strings. -/
def sportsApplyFilter (query : String) (filter : Option ListEventsRequestFilter) :
    String × List String :=
  match filter with
  | none => (query, [])
  | some f =>
    let clauses : List String := []
    let args : List String := []
    let clauses :=
      match f.homeTeam with
      | some _ => clauses ++ ["home_team = ?"]
      | none => clauses
    let args :=
      match f.homeTeam with
      | some v => args ++ [v]
      | none => args
    let clauses :=
      match f.awayTeam with
      | some _ => clauses ++ ["away_team = ?"]
      | none => clauses
    let args :=
      match f.awayTeam with
      | some v => args ++ [v]
      | none => args
    let clauses :=
      match f.venueLocation with
      | some _ => clauses ++ ["venue_location = ?"]
      | none => clauses
    let args :=
      match f.venueLocation with
      | some v => args ++ [v]
      | none => args
    let clauses :=
      match f.visible with
      | some b => clauses ++ ["visible = " ++ formatBool b]
      | none => clauses
    if clauses.length ≠ 0 then
      (query ++ " WHERE " ++ strJoin " AND " clauses, args)
    else
      (query, args)

/-- Derived form of the clause list built by racesRepo.applyFilter, used to
state and prove the filter claims; it is related to racesApplyFilter by the
characterization theorem racesApplyFilter_char below. -/
def racesClauseList (f : ListRacesRequestFilter) : List String :=
  (if 0 < f.meetingIds.length then
      ["meeting_id IN (" ++ strRepeat "?," (f.meetingIds.length - 1) ++ "?)"]
    else []) ++
  (match f.visible with
    | some b => ["visible = " ++ formatBool b]
    | none => []) ++
  (match f.id with
    | some _ => ["id = ?"]
    | none => [])

/-- Derived form of the argument list built by racesRepo.applyFilter. -/
def racesArgList (f : ListRacesRequestFilter) : List Int :=
  (if 0 < f.meetingIds.length then f.meetingIds else []) ++
  (match f.id with
    | some i => [i]
    | none => [])

/-- Derived form of the clause list built by sportsRepo.applyFilter. -/
def sportsClauseList (f : ListEventsRequestFilter) : List String :=
  (match f.homeTeam with
    | some _ => ["home_team = ?"]
    | none => []) ++
  (match f.awayTeam with
    | some _ => ["away_team = ?"]
    | none => []) ++
  (match f.venueLocation with
    | some _ => ["venue_location = ?"]
    | none => []) ++
  (match f.visible with
    | some b => ["visible = " ++ formatBool b]
    | none => [])

/-- Derived form of the argument list built by sportsRepo.applyFilter. -/
def sportsArgList (f : ListEventsRequestFilter) : List String :=
  (match f.homeTeam with
    | some v => [v]
    | none => []) ++
  (match f.awayTeam with
    | some v => [v]
    | none => []) ++
  (match f.venueLocation with
    | some v => [v]
    | none => [])

/-! ## Annotators -/

/-- Body of the loop in addStatus (races.go lines 232-249): skip races with
no advertised start time; otherwise OPEN when the start is strictly after
now, else CLOSED. -/
def updateRaceStatus (now : Int) (race : Race) : Race :=
  match race.advertisedStartTime with
  | none => race
  | some t =>
    if now < t then { race with status := "OPEN" }
    else { race with status := "CLOSED" }

/-- addStatus (races.go lines 232-249): the loop mutates each element in
place, i.e. an elementwise map over the slice. -/
def addStatus (now : Int) (races : List Race) : List Race :=
  races.map (updateRaceStatus now)

/-- Body of the loop in sportsRepo.addDerivedFields (sports.go lines
154-171): unconditionally recompute name, then compute status exactly as
for races but only when a start time is present. -/
def updateEventDerived (now : Int) (event : Event) : Event :=
  let event := { event with name := event.awayTeam ++ " vs " ++ event.homeTeam }
  match event.advertisedStartTime with
  | none => event
  | some t =>
    if now < t then { event with status := "OPEN" }
    else { event with status := "CLOSED" }

/-- sportsRepo.addDerivedFields (sports.go lines 154-171). -/
def addDerivedFields (now : Int) (events : List Event) : List Event :=
  events.map (updateEventDerived now)

/-! ## List and GetByID (races.go lines 55-105)

The outcome of db.Query plus the row-scanning loop of scanRaces is passed
explicitly: an execution or scan error, or the list of races scanned from
the id-filtered query. -/

/-- Errors surfaced by the races repository: the sentinel ErrCantFindID
(races.go line 18) or a store execution error. -/
inductive RacesError where
  | errCantFindID
  | storeError (msg : String)
deriving DecidableEq

/-- racesRepo.List (races.go lines 55-74): propagate store errors,
otherwise annotate the scanned rows via addStatus (inside scanRaces). -/
def listRaces (now : Int) (queryResult : Except String (List Race)) :
    Except RacesError (List Race) :=
  match queryResult with
  | Except.error e => Except.error (RacesError.storeError e)
  | Except.ok rows => Except.ok (addStatus now rows)

/-- racesRepo.GetByID (races.go lines 77-105): on success, if the scanned
result list is empty return ErrCantFindID, otherwise the first element. -/
def getByID (now : Int) (queryResult : Except String (List Race)) :
    Except RacesError Race :=
  match queryResult with
  | Except.error e => Except.error (RacesError.storeError e)
  | Except.ok rows =>
    let res := addStatus now rows
    match res with
    | [] => Except.error RacesError.errCantFindID
    | r :: _ => Except.ok r

/-- Modelled from the spec (section 4.3 as amended by the code): the status
an entity carries after annotation, as a function of its start instant and
its status before annotation. When the start instant is absent the status
is left untouched. -/
def specStatus (now : Int) (start : Option Int) (s : String) : String :=
  match start with
  | none => s
  | some t => if now < t then "OPEN" else "CLOSED"

end Entain

namespace Entain

/-! ## Helper lemmas about the annotator bodies -/

theorem updateRaceStatus_frame (now : Int) (r : Race) :
    (updateRaceStatus now r).id = r.id ∧
    (updateRaceStatus now r).meetingId = r.meetingId ∧
    (updateRaceStatus now r).name = r.name ∧
    (updateRaceStatus now r).number = r.number ∧
    (updateRaceStatus now r).visible = r.visible ∧
    (updateRaceStatus now r).advertisedStartTime = r.advertisedStartTime := by
  obtain ⟨i, m, nm, num, v, st, s⟩ := r
  cases st with
  | none => exact ⟨rfl, rfl, rfl, rfl, rfl, rfl⟩
  | some t => by_cases hl : now < t <;> simp [updateRaceStatus, hl]

theorem updateRaceStatus_status (now : Int) (r : Race) :
    (updateRaceStatus now r).status = specStatus now r.advertisedStartTime r.status := by
  obtain ⟨i, m, nm, num, v, st, s⟩ := r
  cases st with
  | none => rfl
  | some t => by_cases hl : now < t <;> simp [updateRaceStatus, specStatus, hl]

theorem updateEventDerived_frame (now : Int) (e : Event) :
    (updateEventDerived now e).id = e.id ∧
    (updateEventDerived now e).homeTeam = e.homeTeam ∧
    (updateEventDerived now e).awayTeam = e.awayTeam ∧
    (updateEventDerived now e).venueLocation = e.venueLocation ∧
    (updateEventDerived now e).visible = e.visible ∧
    (updateEventDerived now e).advertisedStartTime = e.advertisedStartTime := by
  obtain ⟨i, nm, ht, aw, vl, v, st, s⟩ := e
  cases st with
  | none => exact ⟨rfl, rfl, rfl, rfl, rfl, rfl⟩
  | some t => by_cases hl : now < t <;> simp [updateEventDerived, hl]

theorem updateEventDerived_name (now : Int) (e : Event) :
    (updateEventDerived now e).name = e.awayTeam ++ " vs " ++ e.homeTeam := by
  obtain ⟨i, nm, ht, aw, vl, v, st, s⟩ := e
  cases st with
  | none => rfl
  | some t => by_cases hl : now < t <;> simp [updateEventDerived, hl]

theorem updateEventDerived_status (now : Int) (e : Event) :
    (updateEventDerived now e).status = specStatus now e.advertisedStartTime e.status := by
  obtain ⟨i, nm, ht, aw, vl, v, st, s⟩ := e
  cases st with
  | none => rfl
  | some t => by_cases hl : now < t <;> simp [updateEventDerived, specStatus, hl]

end Entain

namespace Entain

theorem addStatus_map_proj {α : Type} (now : Int) (races : List Race) (f : Race → α)
    (h : ∀ r, f (updateRaceStatus now r) = f r) :
    (addStatus now races).map f = races.map f := by
  induction races with
  | nil => rfl
  | cons r t ih =>
    simp only [addStatus, List.map_cons, List.cons.injEq] at ih ⊢
    exact ⟨h r, ih⟩

theorem addDerivedFields_map_proj {α : Type} (now : Int) (events : List Event) (f : Event → α)
    (h : ∀ e, f (updateEventDerived now e) = f e) :
    (addDerivedFields now events).map f = events.map f := by
  induction events with
  | nil => rfl
  | cons e t ih =>
    simp only [addDerivedFields, List.map_cons, List.cons.injEq] at ih ⊢
    exact ⟨h e, ih⟩

/-- Claim C4, counterexample: a race whose advertised start time is absent
but whose status field was already nonempty keeps that status after
addStatus, so the annotated status is not the empty string even though the
start time is absent. -/
theorem addStatus_absent_keeps_status_cex :
    ((⟨1, 2, "r", 3, true, none, "OPEN"⟩ : Race).advertisedStartTime = none) ∧
    (addStatus 0 [(⟨1, 2, "r", 3, true, none, "OPEN"⟩ : Race)]).map Race.status ≠ [""] := by
  exact ⟨rfl, by decide⟩

/-- Claim C4 as amended: for every list of entities passed to the annotator
(addStatus for races, addDerivedFields for events), the status after
annotation is the input status unchanged when the advertised start time is
absent (hence the empty string exactly for entities scanned with the
zero-value status), is OPEN when the start time is strictly after the
evaluation instant, and is CLOSED otherwise, including when the start time
equals the evaluation instant exactly; an empty input list yields an empty
output with no error. -/
theorem annotator_status_spec (now : Int) (races : List Race) (events : List Event) :
    ((addStatus now races).map Race.status
        = races.map (fun r => specStatus now r.advertisedStartTime r.status)) ∧
    ((addDerivedFields now events).map Event.status
        = events.map (fun e => specStatus now e.advertisedStartTime e.status)) ∧
    addStatus now ([] : List Race) = [] ∧
    addDerivedFields now ([] : List Event) = [] := by
  refine ⟨?_, ?_, rfl, rfl⟩
  · induction races with
    | nil => rfl
    | cons r t ih =>
      simp only [addStatus, List.map_cons, List.cons.injEq] at ih ⊢
      exact ⟨updateRaceStatus_status now r, ih⟩
  · induction events with
    | nil => rfl
    | cons e t ih =>
      simp only [addDerivedFields, List.map_cons, List.cons.injEq] at ih ⊢
      exact ⟨updateEventDerived_status now e, ih⟩

/-- Claim C8: for every list of events passed to addDerivedFields and every
event in it, the name field is set to the away team, the literal
interposed token, then the home team, unconditionally for every event in
every call, including events with an absent advertised start time. -/
theorem addDerivedFields_name_spec (now : Int) (events : List Event) :
    (addDerivedFields now events).map Event.name
      = events.map (fun e => e.awayTeam ++ " vs " ++ e.homeTeam) := by
  induction events with
  | nil => rfl
  | cons e t ih =>
    simp only [addDerivedFields, List.map_cons, List.cons.injEq] at ih ⊢
    exact ⟨updateEventDerived_name now e, ih⟩

/-- Claim C9: the annotators preserve the collection and mutate only the
derived fields: addStatus and addDerivedFields return lists of the same
length and element order in which every field other than status (races),
respectively other than status and name (events), is unchanged. -/
theorem annotators_frame_spec (now : Int) (races : List Race) (events : List Event) :
    (addStatus now races).length = races.length ∧
    (addStatus now races).map Race.id = races.map Race.id ∧
    (addStatus now races).map Race.meetingId = races.map Race.meetingId ∧
    (addStatus now races).map Race.name = races.map Race.name ∧
    (addStatus now races).map Race.number = races.map Race.number ∧
    (addStatus now races).map Race.visible = races.map Race.visible ∧
    (addStatus now races).map Race.advertisedStartTime
        = races.map Race.advertisedStartTime ∧
    (addDerivedFields now events).length = events.length ∧
    (addDerivedFields now events).map Event.id = events.map Event.id ∧
    (addDerivedFields now events).map Event.homeTeam = events.map Event.homeTeam ∧
    (addDerivedFields now events).map Event.awayTeam = events.map Event.awayTeam ∧
    (addDerivedFields now events).map Event.venueLocation
        = events.map Event.venueLocation ∧
    (addDerivedFields now events).map Event.visible = events.map Event.visible ∧
    (addDerivedFields now events).map Event.advertisedStartTime
        = events.map Event.advertisedStartTime := by
  refine ⟨by simp [addStatus],
    addStatus_map_proj now races _ (fun r => (updateRaceStatus_frame now r).1),
    addStatus_map_proj now races _ (fun r => (updateRaceStatus_frame now r).2.1),
    addStatus_map_proj now races _ (fun r => (updateRaceStatus_frame now r).2.2.1),
    addStatus_map_proj now races _ (fun r => (updateRaceStatus_frame now r).2.2.2.1),
    addStatus_map_proj now races _ (fun r => (updateRaceStatus_frame now r).2.2.2.2.1),
    addStatus_map_proj now races _ (fun r => (updateRaceStatus_frame now r).2.2.2.2.2),
    by simp [addDerivedFields],
    addDerivedFields_map_proj now events _ (fun e => (updateEventDerived_frame now e).1),
    addDerivedFields_map_proj now events _ (fun e => (updateEventDerived_frame now e).2.1),
    addDerivedFields_map_proj now events _ (fun e => (updateEventDerived_frame now e).2.2.1),
    addDerivedFields_map_proj now events _ (fun e => (updateEventDerived_frame now e).2.2.2.1),
    addDerivedFields_map_proj now events _ (fun e => (updateEventDerived_frame now e).2.2.2.2.1),
    addDerivedFields_map_proj now events _ (fun e => (updateEventDerived_frame now e).2.2.2.2.2)⟩

end Entain

namespace Entain

/-- Claim C7: GetByID returns the sentinel ErrCantFindID exactly when the
identifier-filtered query yields zero rows; when at least one row matches
it returns the first matching race (annotated) with no error; store
execution errors propagate as store errors; and List never returns the
sentinel, so single-entity lookup is the only place it is surfaced. -/
theorem getByID_sentinel_spec :
    (∀ (now : Int) (rows : List Race),
        getByID now (Except.ok rows) = Except.error RacesError.errCantFindID ↔ rows = []) ∧
    (∀ (now : Int) (r : Race) (rest : List Race),
        getByID now (Except.ok (r :: rest)) = Except.ok (updateRaceStatus now r)) ∧
    (∀ (now : Int) (e : String),
        getByID now (Except.error e) = Except.error (RacesError.storeError e)) ∧
    (∀ (now : Int) (queryResult : Except String (List Race)),
        ¬ (listRaces now queryResult = Except.error RacesError.errCantFindID)) := by
  refine ⟨?_, ?_, ?_, ?_⟩
  · intro now rows
    cases rows with
    | nil => simp [getByID, addStatus]
    | cons r t => simp [getByID, addStatus]
  · intro now r rest
    simp [getByID, addStatus]
  · intro now e
    rfl
  · intro now queryResult
    cases queryResult with
    | error e => simp [listRaces]
    | ok rows => simp [listRaces]

/-- Claim C7, witness: the sentinel is produced on an empty result set. -/
theorem getByID_sentinel_spec_witness :
    getByID 0 (Except.ok ([] : List Race)) = Except.error RacesError.errCantFindID :=
  (getByID_sentinel_spec.1 0 []).mpr rfl

end Entain

namespace Entain

/-- Claim C1, counterexample: with a catalog that does contain the
advertised start time column, an order request whose field is absent or
empty yields no default ordering in the sports repository, and a races
order request whose field is present but empty yields no default either;
both queries come back unchanged, with no ORDER BY appended. -/
theorem applyOrder_no_default_cex :
    sportsApplyOrder "SELECT * FROM events"
        (CatalogFetch.rows [some "id", some "advertised_start_time"])
        (some ⟨"", some "ASC"⟩) = "SELECT * FROM events" ∧
    racesApplyOrder "SELECT * FROM races"
        (CatalogFetch.rows [some "id", some "advertised_start_time"])
        (some ⟨some "", some "ASC"⟩) = "SELECT * FROM races" := by
  exact ⟨by decide, by decide⟩

/-- Claim C1 as amended: only the races order compiler applies the
configured default field, and only when the requested field is absent
(a nil pointer): it then appends the default ORDER BY on the advertised
start time column plus the direction suffix. A races field that is present
but empty, and any sports request with an empty field, fail catalog
validation and leave the query unchanged; the sports compiler has no
default branch at all. (Stated for catalogs that do not accept the empty
string as a column name, which includes every failing catalog.) -/
theorem applyOrder_default_spec (q : String) (cat : CatalogFetch) (d : Option String)
    (h : catalogAccepts cat "" = false) :
    racesApplyOrder q cat (some ⟨none, d⟩)
        = q ++ " ORDER BY advertised_start_time" ++ parseDirection (d.getD "") ∧
    racesApplyOrder q cat (some ⟨some "", d⟩) = q ∧
    sportsApplyOrder q cat (some ⟨"", d⟩) = q := by
  cases cat with
  | fetchError =>
    exact ⟨rfl, rfl, rfl⟩
  | rows rs =>
    cases hs : scanColumns rs with
    | none =>
      refine ⟨?_, ?_, ?_⟩ <;>
        simp [racesApplyOrder, sportsApplyOrder, hs, ListRacesRequestOrder.getDirection]
    | some cols =>
      have hc : cols.contains "" = false := by
        simpa [catalogAccepts, hs] using h
      have hm : ("" : String) ∉ cols := by simpa using hc
      refine ⟨?_, ?_, ?_⟩ <;>
        simp [racesApplyOrder, sportsApplyOrder, hs, hm,
          ListRacesRequestOrder.getField, ListRacesRequestOrder.getDirection,
          ListEventsRequestOrder.getField]

/-- Claim C1, witness for the amended statement. -/
theorem applyOrder_default_spec_witness :
    racesApplyOrder "Q" (CatalogFetch.rows [some "id"]) (some ⟨none, some "asc"⟩)
        = "Q" ++ " ORDER BY advertised_start_time" ++ parseDirection ((some "asc").getD "") ∧
    racesApplyOrder "Q" (CatalogFetch.rows [some "id"]) (some ⟨some "", some "asc"⟩) = "Q" ∧
    sportsApplyOrder "Q" (CatalogFetch.rows [some "id"]) (some ⟨"", some "asc"⟩) = "Q" :=
  applyOrder_default_spec "Q" (CatalogFetch.rows [some "id"]) (some "asc") (by decide)

/-- Claim C2, counterexample: when the catalog fetch fails and the races
order request has an absent field, racesApplyOrder does not return the
base query unchanged: the default ordering has already been appended. -/
theorem applyOrder_catalog_failure_cex :
    racesApplyOrder "Q" CatalogFetch.fetchError (some ⟨none, none⟩)
        = "Q ORDER BY advertised_start_time" ∧
    "Q ORDER BY advertised_start_time" ≠ "Q" := by
  exact ⟨by decide, by decide⟩

/-- Claim C2 as amended: when fetching or scanning the column catalog
fails, applyOrder returns the query accumulated so far and no error: for
the sports repository, and for the races repository whenever the field is
present, this is the base query unchanged; for a races request with an
absent field it is the base query with the default ordering already
appended. No error is ever propagated (applyOrder returns a plain string
on every path). -/
theorem applyOrder_catalog_failure_spec (q : String) (cat : CatalogFetch)
    (h : catalogFailed cat = true) :
    (∀ (fld : String) (d : Option String),
        racesApplyOrder q cat (some ⟨some fld, d⟩) = q) ∧
    (∀ d : Option String, racesApplyOrder q cat (some ⟨none, d⟩)
        = q ++ " ORDER BY advertised_start_time" ++ parseDirection (d.getD "")) ∧
    (∀ o : ListEventsRequestOrder, sportsApplyOrder q cat (some o) = q) := by
  cases cat with
  | fetchError =>
    exact ⟨fun fld d => rfl, fun d => rfl, fun o => rfl⟩
  | rows rs =>
    cases hs : scanColumns rs with
    | some cols => simp [catalogFailed, hs] at h
    | none =>
      refine ⟨fun fld d => ?_, fun d => ?_, fun o => ?_⟩ <;>
        simp [racesApplyOrder, sportsApplyOrder, hs, ListRacesRequestOrder.getDirection]

/-- Claim C2, witness for the amended statement. -/
theorem applyOrder_catalog_failure_spec_witness :
    racesApplyOrder "Q" CatalogFetch.fetchError (some ⟨some "name", none⟩) = "Q" ∧
    sportsApplyOrder "Q" CatalogFetch.fetchError (some ⟨"name", none⟩) = "Q" :=
  ⟨(applyOrder_catalog_failure_spec "Q" CatalogFetch.fetchError (by decide)).1 "name" none,
   (applyOrder_catalog_failure_spec "Q" CatalogFetch.fetchError (by decide)).2.2 ⟨"name", none⟩⟩

/-- Claim C3: for every non-nil order request whose field is not a member
of the column catalog returned by the store (case-sensitive exact match),
applyOrder in both repositories returns the query byte-identical to the
input, raising no error. -/
theorem applyOrder_unknown_field_spec (q : String) (rs : List (Option String))
    (cols : List String) (fld : String) (d dr : Option String)
    (hs : scanColumns rs = some cols) (hc : cols.contains fld = false) :
    racesApplyOrder q (CatalogFetch.rows rs) (some ⟨some fld, d⟩) = q ∧
    sportsApplyOrder q (CatalogFetch.rows rs) (some ⟨fld, dr⟩) = q := by
  have hm : fld ∉ cols := by simpa using hc
  constructor <;>
    simp [racesApplyOrder, sportsApplyOrder, hs, hm,
      ListRacesRequestOrder.getField, ListEventsRequestOrder.getField]

/-- Claim C3, witness: an unknown field leaves the query unchanged. -/
theorem applyOrder_unknown_field_spec_witness :
    racesApplyOrder "Q" (CatalogFetch.rows [some "id"]) (some ⟨some "unknown", some "ASC"⟩) = "Q" ∧
    sportsApplyOrder "Q" (CatalogFetch.rows [some "id"]) (some ⟨"unknown", some "ASC"⟩) = "Q" :=
  applyOrder_unknown_field_spec "Q" [some "id"] ["id"] "unknown" (some "ASC") (some "ASC")
    (by decide) (by decide)

end Entain

namespace Entain

/-! ## String machinery for the filter claims -/

theorem countPlaceholders_append (a b : String) :
    countPlaceholders (a ++ b) = countPlaceholders a + countPlaceholders b := by
  simp [countPlaceholders, String.data_append, List.count_append]

theorem countPlaceholders_strRepeat (n : Nat) :
    countPlaceholders (strRepeat "?," n) = n := by
  induction n with
  | zero => rfl
  | succ k ih =>
    have h1 : countPlaceholders "?," = 1 := by decide
    simp [strRepeat, countPlaceholders_append, ih, h1]
    omega

theorem strJoin_mem_decomp (sep : String) :
    ∀ (l : List String) (c : String), c ∈ l →
      ∃ pre post : List Char, (strJoin sep l).data = pre ++ c.data ++ post := by
  intro l
  induction l with
  | nil => intro c h; cases h
  | cons s t ih =>
    intro c h
    cases t with
    | nil =>
      have hc : c = s := by simpa using h
      subst hc
      exact ⟨[], [], by simp [strJoin]⟩
    | cons u v =>
      rcases List.mem_cons.mp h with hc | hc
      · subst hc
        refine ⟨[], sep.data ++ (strJoin sep (u :: v)).data, ?_⟩
        simp [strJoin, String.data_append]
      · obtain ⟨pre, post, hd⟩ := ih c hc
        refine ⟨s.data ++ sep.data ++ pre, post, ?_⟩
        simp [strJoin, String.data_append, hd]

theorem containsFrag_join (q w sep : String) (l : List String) (c : String) (h : c ∈ l) :
    containsFrag (q ++ w ++ strJoin sep l) c := by
  obtain ⟨pre, post, hd⟩ := strJoin_mem_decomp sep l c h
  exact ⟨q.data ++ w.data ++ pre, post, by simp [String.data_append, hd]⟩

/-! ## Characterization of the filter compilers via the clause lists -/

theorem racesApplyFilter_char (q : String) (f : ListRacesRequestFilter) :
    racesApplyFilter q (some f) =
      if (racesClauseList f).length ≠ 0 then
        (q ++ " WHERE " ++ strJoin " AND " (racesClauseList f), racesArgList f)
      else (q, racesArgList f) := by
  obtain ⟨mids, vis, fid⟩ := f
  rcases vis with _ | b <;> rcases fid with _ | i <;>
    by_cases h : 0 < mids.length <;>
      simp [racesApplyFilter, racesClauseList, racesArgList, h]

theorem sportsApplyFilter_char (q : String) (f : ListEventsRequestFilter) :
    sportsApplyFilter q (some f) =
      if (sportsClauseList f).length ≠ 0 then
        (q ++ " WHERE " ++ strJoin " AND " (sportsClauseList f), sportsArgList f)
      else (q, sportsArgList f) := by
  obtain ⟨ht, aw, vl, vis⟩ := f
  rcases ht with _ | x <;> rcases aw with _ | y <;> rcases vl with _ | z <;>
    rcases vis with _ | b <;>
      simp [sportsApplyFilter, sportsClauseList, sportsArgList]

theorem racesApplyFilter_fst (q : String) (f : ListRacesRequestFilter) :
    (racesApplyFilter q (some f)).1 =
      if (racesClauseList f).length ≠ 0 then
        q ++ " WHERE " ++ strJoin " AND " (racesClauseList f)
      else q := by
  rw [racesApplyFilter_char]
  by_cases h : (racesClauseList f).length ≠ 0 <;> simp [h]

theorem racesApplyFilter_snd (q : String) (f : ListRacesRequestFilter) :
    (racesApplyFilter q (some f)).2 = racesArgList f := by
  rw [racesApplyFilter_char]
  by_cases h : (racesClauseList f).length ≠ 0 <;> simp [h]

theorem sportsApplyFilter_fst (q : String) (f : ListEventsRequestFilter) :
    (sportsApplyFilter q (some f)).1 =
      if (sportsClauseList f).length ≠ 0 then
        q ++ " WHERE " ++ strJoin " AND " (sportsClauseList f)
      else q := by
  rw [sportsApplyFilter_char]
  by_cases h : (sportsClauseList f).length ≠ 0 <;> simp [h]

theorem sportsApplyFilter_snd (q : String) (f : ListEventsRequestFilter) :
    (sportsApplyFilter q (some f)).2 = sportsArgList f := by
  rw [sportsApplyFilter_char]
  by_cases h : (sportsClauseList f).length ≠ 0 <;> simp [h]

end Entain

namespace Entain

/-- Claim C5: for every races filter with N >= 1 meeting identifiers,
applyFilter emits a clause of the form meeting_id IN followed by exactly N
placeholder characters, and the argument list is the N meeting identifiers
in original order followed only by the optional identifier-equality
argument (so exactly the meeting identifiers when no id filter is set). -/
theorem applyFilter_membership_spec (q : String) (f : ListRacesRequestFilter)
    (h : 0 < f.meetingIds.length) :
    containsFrag (racesApplyFilter q (some f)).1
        ("meeting_id IN (" ++ strRepeat "?," (f.meetingIds.length - 1) ++ "?)") ∧
    countPlaceholders
        ("meeting_id IN (" ++ strRepeat "?," (f.meetingIds.length - 1) ++ "?)")
        = f.meetingIds.length ∧
    (racesApplyFilter q (some f)).2
        = f.meetingIds ++ (match f.id with | some i => [i] | none => []) := by
  have hmem : ("meeting_id IN (" ++ strRepeat "?," (f.meetingIds.length - 1) ++ "?)")
      ∈ racesClauseList f := by
    simp [racesClauseList, h]
  have hne : (racesClauseList f).length ≠ 0 :=
    fun h0 => (List.ne_nil_of_mem hmem) (List.length_eq_zero.mp h0)
  refine ⟨?_, ?_, ?_⟩
  · rw [racesApplyFilter_fst, if_pos hne]
    exact containsFrag_join q " WHERE " " AND " _ _ hmem
  · have c1 : countPlaceholders "meeting_id IN (" = 0 := by decide
    have c2 : countPlaceholders "?)" = 1 := by decide
    rw [countPlaceholders_append, countPlaceholders_append, c1, c2,
      countPlaceholders_strRepeat]
    omega
  · rw [racesApplyFilter_snd]
    simp [racesArgList, h]

/-- Claim C5, witness at the filter with meeting ids 1 and 2. -/
theorem applyFilter_membership_spec_witness :
    containsFrag (racesApplyFilter "S" (some ⟨[1, 2], none, none⟩)).1
        ("meeting_id IN (" ++ strRepeat "?," (([1, 2] : List Int).length - 1) ++ "?)") ∧
    countPlaceholders
        ("meeting_id IN (" ++ strRepeat "?," (([1, 2] : List Int).length - 1) ++ "?)")
        = ([1, 2] : List Int).length ∧
    (racesApplyFilter "S" (some ⟨[1, 2], none, none⟩)).2
        = [1, 2] ++ (match (none : Option Int) with | some i => [i] | none => []) :=
  applyFilter_membership_spec "S" ⟨[1, 2], none, none⟩ (by decide)

/-- Claim C6: whenever the visibility field is set, both filter compilers
inline the boolean into the SQL text as the literal fragment visible =
true or visible = false; the fragment contains no placeholder, and the
argument list is exactly the one produced with visibility unset, for
either boolean value. -/
theorem applyFilter_visible_spec (q : String) (f : ListRacesRequestFilter)
    (g : ListEventsRequestFilter) (b c : Bool)
    (hf : f.visible = some b) (hg : g.visible = some c) :
    containsFrag (racesApplyFilter q (some f)).1 ("visible = " ++ formatBool b) ∧
    countPlaceholders ("visible = " ++ formatBool b) = 0 ∧
    (racesApplyFilter q (some f)).2
        = (racesApplyFilter q (some ⟨f.meetingIds, none, f.id⟩)).2 ∧
    containsFrag (sportsApplyFilter q (some g)).1 ("visible = " ++ formatBool c) ∧
    countPlaceholders ("visible = " ++ formatBool c) = 0 ∧
    (sportsApplyFilter q (some g)).2
        = (sportsApplyFilter q (some ⟨g.homeTeam, g.awayTeam, g.venueLocation, none⟩)).2 := by
  have hmem : ("visible = " ++ formatBool b) ∈ racesClauseList f := by
    simp [racesClauseList, hf]
  have hne : (racesClauseList f).length ≠ 0 :=
    fun h0 => (List.ne_nil_of_mem hmem) (List.length_eq_zero.mp h0)
  have hmem2 : ("visible = " ++ formatBool c) ∈ sportsClauseList g := by
    simp [sportsClauseList, hg]
  have hne2 : (sportsClauseList g).length ≠ 0 :=
    fun h0 => (List.ne_nil_of_mem hmem2) (List.length_eq_zero.mp h0)
  refine ⟨?_, ?_, ?_, ?_, ?_, ?_⟩
  · rw [racesApplyFilter_fst, if_pos hne]
    exact containsFrag_join q " WHERE " " AND " _ _ hmem
  · cases b <;> decide
  · rw [racesApplyFilter_snd, racesApplyFilter_snd]
    simp [racesArgList]
  · rw [sportsApplyFilter_fst, if_pos hne2]
    exact containsFrag_join q " WHERE " " AND " _ _ hmem2
  · cases c <;> decide
  · rw [sportsApplyFilter_snd, sportsApplyFilter_snd]
    simp [sportsArgList]

/-- Claim C6, witness with visibility set to true in both filters. -/
theorem applyFilter_visible_spec_witness :
    containsFrag (racesApplyFilter "S" (some ⟨[], some true, none⟩)).1
        ("visible = " ++ formatBool true) ∧
    countPlaceholders ("visible = " ++ formatBool true) = 0 ∧
    (racesApplyFilter "S" (some ⟨[], some true, none⟩)).2
        = (racesApplyFilter "S" (some ⟨[], none, none⟩)).2 ∧
    containsFrag (sportsApplyFilter "S" (some ⟨none, none, none, some true⟩)).1
        ("visible = " ++ formatBool true) ∧
    countPlaceholders ("visible = " ++ formatBool true) = 0 ∧
    (sportsApplyFilter "S" (some ⟨none, none, none, some true⟩)).2
        = (sportsApplyFilter "S" (some ⟨none, none, none, none⟩)).2 :=
  applyFilter_visible_spec "S" ⟨[], some true, none⟩ ⟨none, none, none, some true⟩
    true true rfl rfl

/-- Claim C10: the SQL text emitted by applyFilter is independent of the
string and numeric filter values: two filters setting the same fields,
with the same number of membership identifiers and the same visibility
boolean, compile to identical query strings; values reach the store only
through the argument list. -/
theorem applyFilter_noninterference (q : String)
    (f1 f2 : ListRacesRequestFilter) (g1 g2 : ListEventsRequestFilter)
    (hm : f1.meetingIds.length = f2.meetingIds.length)
    (hv : f1.visible = f2.visible)
    (hi : f1.id.isSome = f2.id.isSome)
    (h1 : g1.homeTeam.isSome = g2.homeTeam.isSome)
    (h2 : g1.awayTeam.isSome = g2.awayTeam.isSome)
    (h3 : g1.venueLocation.isSome = g2.venueLocation.isSome)
    (h4 : g1.visible = g2.visible) :
    (racesApplyFilter q (some f1)).1 = (racesApplyFilter q (some f2)).1 ∧
    (sportsApplyFilter q (some g1)).1 = (sportsApplyFilter q (some g2)).1 := by
  have hcl : racesClauseList f1 = racesClauseList f2 := by
    unfold racesClauseList
    rw [hm, hv]
    rcases hi1 : f1.id with _ | x <;> rcases hi2 : f2.id with _ | y <;>
      simp [hi1, hi2] at hi ⊢
  have hcl2 : sportsClauseList g1 = sportsClauseList g2 := by
    unfold sportsClauseList
    rw [h4]
    rcases e1 : g1.homeTeam with _ | x1 <;> rcases e2 : g2.homeTeam with _ | x2 <;>
      rcases e3 : g1.awayTeam with _ | y1 <;> rcases e4 : g2.awayTeam with _ | y2 <;>
        rcases e5 : g1.venueLocation with _ | z1 <;> rcases e6 : g2.venueLocation with _ | z2 <;>
          simp [e1, e2, e3, e4, e5, e6] at h1 h2 h3 ⊢
  constructor
  · rw [racesApplyFilter_fst, racesApplyFilter_fst, hcl]
  · rw [sportsApplyFilter_fst, sportsApplyFilter_fst, hcl2]

/-- Claim C10, witness: two filter pairs differing only in their bound
values compile to identical query strings. -/
theorem applyFilter_noninterference_witness :
    (racesApplyFilter "S" (some ⟨[1, 2], some true, some 7⟩)).1
        = (racesApplyFilter "S" (some ⟨[8, 9], some true, some 5⟩)).1 ∧
    (sportsApplyFilter "S" (some ⟨some "A", none, some "X", some false⟩)).1
        = (sportsApplyFilter "S" (some ⟨some "B", none, some "Y", some false⟩)).1 :=
  applyFilter_noninterference "S" ⟨[1, 2], some true, some 7⟩ ⟨[8, 9], some true, some 5⟩
    ⟨some "A", none, some "X", some false⟩ ⟨some "B", none, some "Y", some false⟩
    rfl rfl rfl rfl rfl rfl rfl

end Entain
